import Mathlib

/-!
Shallow embedding of the core of the `j1939` Rust crate (frame codec,
TP-CM/TP-DT codec, transport packager, address monitor, control-function
state machine and the stack dispatcher's fan-out loop), together with
theorems settling the specification claims about it.

Conventions used throughout:
* Rust machine integers (`u8`/`u16`/`u32`/`u64`) are modelled as `Nat`;
  a cast such as `x as u8` becomes `x % 256`, and an operation whose Rust
  result is truncated (e.g. a `u32` shift) carries an explicit `% 2 ^ 32`.
  Type-level range invariants (`u8` values are `< 256`) appear as theorem
  hypotheses where they matter.
* Code that can panic (`unwrap`, `expect`, out-of-bounds indexing,
  `panic!`, `copy_from_slice` with mismatched lengths, debug-mode integer
  overflow) is modelled with `Option`, `none` standing for the panic.
* `BTreeMap` is modelled as an association list with `mapGet`,
  `mapInsert` (replacing), `mapRemove` and `mapContains`.
* `crossbeam_queue::ArrayQueue<Frame>` of capacity 20 with `force_push`
  (oldest element evicted when full) is a `List Frame` whose head is the
  oldest element.
* The timer driver is replaced by passing the current millisecond value
  `now : Nat` explicitly.
-/

set_option maxRecDepth 10000

namespace J1939

/-! ## Frame codec (`src/frame.rs`) -/

/-- `PGN` wraps a `u32` parameter group number. -/
structure PGN where
  raw : Nat
deriving DecidableEq

/-- `PGN::new`. -/
def PGN.new (pgn : Nat) : PGN := ⟨pgn⟩

/-- `PGN::is_broadcast`: `((self.0 >> 8) & 0xFF) > 240`. -/
def PGN.is_broadcast (p : PGN) : Bool := 240 < (p.raw >>> 8) &&& 0xFF

def PGN_TP_CM : PGN := ⟨0xEC00⟩
def PGN_TP_DT : PGN := ⟨0xEB00⟩
def PGN_ETP_CM : PGN := ⟨0xC800⟩
def PGN_ETP_DT : PGN := ⟨0xC700⟩
def PGN_ADDRESSCLAIM : PGN := ⟨0xEE00⟩
def PGN_ADDRESSCOMMAND : PGN := ⟨0xFED8⟩
def PGN_REQUEST : PGN := ⟨0xEA00⟩
def PGN_ACK : PGN := ⟨0xE800⟩

/-- Header of a decoded J1939 frame. `priority`, `source_address` and the
optional `destination_address` are `u8` values. -/
structure Header where
  pgn : PGN
  priority : Nat
  source_address : Nat
  destination_address : Option Nat
deriving DecidableEq

/-- `impl From<u32> for Header` (parsing a 29-bit CAN id). -/
def Header.from_u32 (id : Nat) : Header :=
  if 240 ≤ (id >>> 16) &&& 0xFF then
    -- broadcast
    { pgn := PGN.new ((id >>> 8) &&& 0x3FFFF)
      priority := ((id >>> 26) % 256) &&& 0x7
      source_address := id % 256
      destination_address := none }
  else
    -- peer to peer
    { pgn := PGN.new ((id >>> 8) &&& 0x3FF00)
      priority := ((id >>> 26) % 256) &&& 0x7
      source_address := id % 256
      destination_address := some ((id >>> 8) % 256) }

/-- `impl From<Header> for u32`: `id = sa | pgn << 8 | (da << 8)? | prio << 26`,
all arithmetic in `u32` (shifts truncated to 32 bits). -/
def Header.to_u32 (h : Header) : Nat :=
  match h.destination_address with
  | some da =>
    ((h.source_address ||| (h.pgn.raw <<< 8) % 2 ^ 32) ||| (da <<< 8) % 2 ^ 32) |||
      (h.priority <<< 26) % 2 ^ 32
  | none =>
    (h.source_address ||| (h.pgn.raw <<< 8) % 2 ^ 32) ||| (h.priority <<< 26) % 2 ^ 32

/-- A decoded J1939 frame: header plus payload bytes. -/
structure Frame where
  header : Header
  data : List Nat
deriving DecidableEq

/-- Little-endian recombination of a byte list (`u{16,32,64}::from_le_bytes`). -/
def from_le_bytes (data : List Nat) : Nat :=
  data.foldr (fun b acc => b + 256 * acc) 0

/-- The first `count` little-endian bytes of `value` (`to_le_bytes` plus slicing). -/
def le_bytes (count value : Nat) : List Nat :=
  (List.range count).map (fun i => value / 256 ^ i % 256)

/-- `Request` frame specialization (requests a PGN to be sent). -/
structure Request where
  header : Header
  pgn : PGN
deriving DecidableEq

/-- `Request::new`. -/
def Request.new (pgn : PGN) (source_address destination_address : Nat) : Request :=
  { header := { pgn := PGN_REQUEST, priority := 3, source_address,
                destination_address := some destination_address }
    pgn := pgn }

/-- `impl TryFrom<Frame> for Request`. Outer `none` models the panic of the
unguarded `bytes[0..3].copy_from_slice(frame.data())` when the payload is not
exactly 3 bytes; `some none` models `Err(())` on a non-REQUEST PGN. -/
def Request.try_from (frame : Frame) : Option (Option Request) :=
  if frame.header.pgn = PGN_REQUEST then
    if frame.data.length = 3 then
      some (some { header := frame.header, pgn := PGN.new (from_le_bytes frame.data) })
    else none
  else some none

/-- `impl From<Request> for Frame`. -/
def Request.to_frame (req : Request) : Frame :=
  { header := req.header, data := le_bytes 3 req.pgn.raw }

/-! ## NAME

Modelled from the spec: `src/name.rs` is not present in the sources (only its
uses are). Per the spec, NAME is an opaque 64-bit identifier, total-ordered by
unsigned comparison, with one significant field `address_capable` ("CF may
auto-select its address"). We model it as the raw `u64` value plus that flag;
`Name::from(u64)` recovers the flag from the top bit (which bit carries the
flag is immaterial to every claim below). -/

structure Name where
  raw : Nat
  address_capable : Bool
deriving DecidableEq

/-- Modelled from the spec: `Name::from(u64)` (used by the address monitor). -/
def Name.from_u64 (v : Nat) : Name :=
  { raw := v, address_capable := v.testBit 63 }

/-! ## Association-list model of `BTreeMap` -/

def mapContains {K V : Type} [DecidableEq K] (m : List (K × V)) (k : K) : Bool :=
  m.any (fun p => decide (p.1 = k))

def mapGet {K V : Type} [DecidableEq K] (m : List (K × V)) (k : K) : Option V :=
  (m.find? (fun p => decide (p.1 = k))).map Prod.snd

def mapRemove {K V : Type} [DecidableEq K] (m : List (K × V)) (k : K) : List (K × V) :=
  m.filter (fun p => decide (p.1 ≠ k))

def mapInsert {K V : Type} [DecidableEq K] (m : List (K × V)) (k : K) (v : V) :
    List (K × V) :=
  mapRemove m k ++ [(k, v)]

/-! ## Bounded queues

`ArrayQueue::<Frame>::new(20)` with `force_push`: when full, the oldest
element (list head) is evicted. -/

def force_push (q : List Frame) (f : Frame) : List Frame :=
  if q.length < 20 then q ++ [f] else q.tail ++ [f]

/-! ## Address monitor (`src/address.rs`) -/

structure AddressMonitor where
  cf : List (Nat × Name)
deriving DecidableEq

/-- `AddressMonitor::handle_frame`. `none` models a panic: the 8-byte NAME
`try_into().unwrap()` on a short ADDRESSCLAIM payload, or the `Request`
decode panicking on a REQUEST payload that is not 3 bytes. -/
def AddressMonitor.handle_frame (m : AddressMonitor) (frame : Frame) :
    Option AddressMonitor :=
  if frame.header.pgn = PGN_ADDRESSCLAIM then
    if frame.data.length = 8 then
      let sa := frame.header.source_address
      let name := Name.from_u64 (from_le_bytes frame.data)
      let old_sa := (m.cf.filter (fun p => decide (p.2 = name))).foldl
        (fun _ p => some p.1) none
      let m1 := match old_sa with
        | some k => mapRemove m.cf k
        | none => m.cf
      some ⟨mapInsert m1 sa name⟩
    else none
  else if frame.header.pgn = PGN_REQUEST then
    match Request.try_from frame with
    | none => none
    | some none => none
    | some (some req) => if req.pgn = PGN_ADDRESSCLAIM then some ⟨[]⟩ else some m
  else some m

/-! ## Control function (`src/control_function.rs`) -/

/-- Address-management state; `Instant` timestamps become `Nat` milliseconds. -/
inductive AddressState where
  | Requested (t : Nat)
  | AddressClaimed
  | Preferred
  | WaitForVeto (t : Nat)
  | CannotClaim
deriving DecidableEq

/-- The `matches!(.., AddressClaimed | WaitForVeto(_))` test. -/
def AddressState.claimed_or_veto : AddressState → Bool
  | .AddressClaimed => true
  | .WaitForVeto _ => true
  | _ => false

structure ControlFunction where
  name : Name
  send_queue : List Frame
  receive_queue : List Frame
  address_state : AddressState
  address : Nat
  address_configurable : Bool
deriving DecidableEq

/-- `ControlFunction::new`. -/
def ControlFunction.new (name : Name) (preferred_address : Nat) : ControlFunction :=
  { name, send_queue := [], receive_queue := [], address_state := .Preferred
    address := preferred_address, address_configurable := name.address_capable }

/-- `ControlFunction::is_online`. -/
def ControlFunction.is_online (cf : ControlFunction) : Option Nat :=
  if cf.address_state = .AddressClaimed then some cf.address else none

/-- The AddressClaim frame pushed by `ControlFunction::send_addressclaim`. -/
def addressclaim_frame (address : Nat) (name : Name) : Frame :=
  { header := { pgn := PGN_ADDRESSCLAIM, priority := 6, source_address := address,
                destination_address := some 255 }
    data := le_bytes 8 name.raw }

/-- The CannotClaim frame pushed by `ControlFunction::send_cannotclaim`
(source address 0xFE). -/
def cannotclaim_frame (name : Name) : Frame :=
  { header := { pgn := PGN_ADDRESSCLAIM, priority := 6, source_address := 0xFE,
                destination_address := some 255 }
    data := le_bytes 8 name.raw }

/-- `ControlFunction::send_addressclaim`. -/
def ControlFunction.send_addressclaim (cf : ControlFunction) : ControlFunction :=
  { cf with send_queue := force_push cf.send_queue (addressclaim_frame cf.address cf.name) }

/-- `ControlFunction::send_cannotclaim`. -/
def ControlFunction.send_cannotclaim (cf : ControlFunction) : ControlFunction :=
  { cf with send_queue := force_push cf.send_queue (cannotclaim_frame cf.name) }

/-- `ControlFunction::handle_addressclaim`. `none` models a panic: the 8-byte
`try_into().unwrap()` on the NAME payload, or `panic!("Same Name on Bus")`. -/
def ControlFunction.handle_addressclaim (cf : ControlFunction) (frame : Frame)
    (now : Nat) : Option ControlFunction :=
  if frame.data.length = 8 then
    if cf.address_state.claimed_or_veto ∧ frame.header.source_address = cf.address then
      if from_le_bytes frame.data < cf.name.raw then
        -- we lose the address
        if cf.address_configurable then
          let addr := if cf.address < 128 ∨ 247 ≤ cf.address then 128 else cf.address + 1
          some (ControlFunction.send_addressclaim
            { cf with address := addr, address_state := .WaitForVeto now })
        else
          some (ControlFunction.send_cannotclaim { cf with address_state := .CannotClaim })
      else if cf.name.raw < from_le_bytes frame.data then
        -- we have higher priority
        some (ControlFunction.send_addressclaim cf)
      else
        none
    else
      some cf
  else
    none

/-- `ControlFunction::handle_new_frame`. `none` models a panic inside the
unguarded `Request` decode (`try_into().unwrap()`) or inside
`handle_addressclaim`. -/
def ControlFunction.handle_new_frame (cf : ControlFunction) (frame : Frame)
    (now : Nat) : Option ControlFunction :=
  match frame.header.destination_address with
  | some da =>
    if da = 0xFF ∨ (cf.address_state = .AddressClaimed ∧ cf.address = da) then
      if frame.header.pgn = PGN_ADDRESSCLAIM then
        cf.handle_addressclaim frame now
      else if frame.header.pgn = PGN_REQUEST then
        match Request.try_from frame with
        | none => none
        | some none => none
        | some (some req) =>
          if req.pgn = PGN_ADDRESSCLAIM then
            match cf.address_state with
            | .AddressClaimed => some cf.send_addressclaim
            | .WaitForVeto _ => some cf.send_addressclaim
            | .CannotClaim => some cf.send_cannotclaim
            | _ => some cf
          else
            some { cf with receive_queue := force_push cf.receive_queue frame }
      else
        some { cf with receive_queue := force_push cf.receive_queue frame }
    else
      some cf
  | none =>
    -- broadcast
    some { cf with receive_queue := force_push cf.receive_queue frame }

/-- The address re-selection loop in the `Requested` branch of
`ControlFunction::process`:
`while contains_key(next_address) || next_address >= 147 { next_address += 1 }`.
The `u8` increment is modelled with wrap-around (`(n + 1) % 256`, the release
behaviour; a debug build panics at the `u8` overflow instead), and `none`
models the loop never reaching its exit condition. -/
def scan_for_address (monitor : AddressMonitor) : Nat → Nat → Option Nat
  | 0, _ => none
  | fuel + 1, next_address =>
    if mapContains monitor.cf next_address = true ∨ 147 ≤ next_address then
      scan_for_address monitor fuel ((next_address + 1) % 256)
    else
      some next_address

/-- `ControlFunction::process` (address management tick). -/
def ControlFunction.process (cf : ControlFunction) (monitor : AddressMonitor)
    (now : Nat) : Option ControlFunction :=
  match cf.address_state with
  | .Preferred =>
    if cf.address_configurable then
      some { cf with
        send_queue := force_push cf.send_queue (Request.new PGN_ADDRESSCLAIM 0xFE 0xFF).to_frame
        address_state := .Requested now }
    else
      some (ControlFunction.send_addressclaim { cf with address_state := .WaitForVeto now })
  | .Requested requested =>
    if 1500 < now - requested then
      if mapContains monitor.cf cf.address then
        match scan_for_address monitor 512 127 with
        | none => none
        | some next_address =>
          if 147 ≤ next_address then
            some (ControlFunction.send_cannotclaim { cf with address_state := .CannotClaim })
          else
            some (ControlFunction.send_addressclaim
              { cf with address := next_address, address_state := .WaitForVeto now })
      else
        some (ControlFunction.send_addressclaim { cf with address_state := .WaitForVeto now })
    else
      some cf
  | .WaitForVeto requested =>
    if 250 < now - requested then
      some { cf with address_state := .AddressClaimed }
    else
      some cf
  | _ => some cf

/-! ## TP-CM / TP-DT codec (`src/transport/tp_frames.rs`) -/

structure TPDT where
  remote_address : Nat
  local_address : Nat
  sequence_number : Nat
  data : List Nat
deriving DecidableEq

/-- `impl From<TPDT> for Frame`. -/
def TPDT.to_frame (tpdt : TPDT) : Frame :=
  { header := { pgn := PGN_TP_DT, priority := 7, source_address := tpdt.local_address,
                destination_address := some tpdt.remote_address }
    data := tpdt.sequence_number :: tpdt.data }

inductive AbortReason where
  | Reserved
  | AlreadyConnected
  | NoResources
  | Timeout
  | CTSWhileTransfer
  | RetransmitLimit
  | UnexpectedTransfer
  | BadSequenceNumber
  | DuplicateSequenceNumber
  | MessageSizeToHigh
  | Other
deriving DecidableEq

/-- `abort_reason as u8` (the discriminant values of the Rust enum). -/
def AbortReason.to_u8 : AbortReason → Nat
  | .Reserved => 0
  | .AlreadyConnected => 1
  | .NoResources => 2
  | .Timeout => 3
  | .CTSWhileTransfer => 4
  | .RetransmitLimit => 5
  | .UnexpectedTransfer => 6
  | .BadSequenceNumber => 7
  | .DuplicateSequenceNumber => 8
  | .MessageSizeToHigh => 9
  | .Other => 250

/-- `from_u8` in `tp_frames.rs` (unknown codes decode to `Other`). -/
def AbortReason.from_u8 (n : Nat) : AbortReason :=
  if n = 0 then .Reserved
  else if n = 1 then .AlreadyConnected
  else if n = 2 then .NoResources
  else if n = 3 then .Timeout
  else if n = 4 then .CTSWhileTransfer
  else if n = 5 then .RetransmitLimit
  else if n = 6 then .UnexpectedTransfer
  else if n = 7 then .BadSequenceNumber
  else if n = 8 then .DuplicateSequenceNumber
  else if n = 9 then .MessageSizeToHigh
  else .Other

inductive TPCM where
  | Rts (message_size packet_count max_packets_per_cts : Nat) (pgn : PGN)
      (remote_address local_address : Nat)
  | Cts (expected_packets next_packet_number : Nat) (pgn : PGN)
      (remote_address local_address : Nat)
  | EndOfMsg (message_size packet_count : Nat) (pgn : PGN)
      (remote_address local_address : Nat)
  | Abort (abort_reason : AbortReason) (pgn : PGN) (remote_address local_address : Nat)
  | Bam (message_size packet_count : Nat) (pgn : PGN) (remote_address local_address : Nat)
deriving DecidableEq

/-- The header every encoded TP-CM frame carries:
`Header::new(PGN_TP_CM, 7, local_address, Some(remote_address))`. -/
def tpcm_header (local_address remote_address : Nat) : Header :=
  { pgn := PGN_TP_CM, priority := 7, source_address := local_address,
    destination_address := some remote_address }

/-- The three little-endian PGN bytes placed in data[5..8]. -/
def pgn_bytes (p : PGN) : List Nat :=
  [p.raw % 256, (p.raw >>> 8) % 256, (p.raw >>> 16) % 256]

/-- `impl From<TPCM> for Frame`. -/
def TPCM.to_frame : TPCM → Frame
  | .Rts ms pc mpc p remote loc =>
    { header := tpcm_header loc remote
      data := 16 :: ms % 256 :: (ms >>> 8) % 256 :: pc :: mpc :: pgn_bytes p }
  | .Cts ep npn p remote loc =>
    { header := tpcm_header loc remote
      data := 17 :: ep :: npn :: 0xFF :: 0xFF :: pgn_bytes p }
  | .EndOfMsg ms pc p remote loc =>
    { header := tpcm_header loc remote
      data := 19 :: ms % 256 :: (ms >>> 8) % 256 :: pc :: 0xFF :: pgn_bytes p }
  | .Abort r p remote loc =>
    { header := tpcm_header loc remote
      data := 255 :: r.to_u8 :: 0xFF :: 0xFF :: 0xFF :: pgn_bytes p }
  | .Bam ms pc p remote loc =>
    { header := tpcm_header loc remote
      data := 32 :: ms % 256 :: (ms >>> 8) % 256 :: pc :: 0xFF :: pgn_bytes p }

/-- `TPCM::from_frame`. `none` models a panic: the destination-address
`unwrap()`, an out-of-bounds index into a short payload, or
`panic!("TPCM Message with invalid control byte")`. -/
def TPCM.from_frame (header : Header) (data : List Nat) : Option TPCM :=
  match header.destination_address with
  | none => none
  | some da =>
    if data.length < 8 then none
    else
      let d := fun i => data.getD i 0
      let data_pgn := PGN.new (d 5 + 256 * d 6 + 65536 * d 7)
      if da = 0xFF ∧ d 0 = 32 then
        some (.Bam (d 1 + 256 * d 2) (d 3) data_pgn header.source_address da)
      else if d 0 = 16 then
        some (.Rts (d 1 + 256 * d 2) (d 3) (d 4) data_pgn header.source_address da)
      else if d 0 = 17 then
        some (.Cts (d 1) (d 2) data_pgn header.source_address da)
      else if d 0 = 19 then
        some (.EndOfMsg (d 1 + 256 * d 2) (d 3) data_pgn header.source_address da)
      else if d 0 = 255 then
        some (.Abort (AbortReason.from_u8 (d 1)) data_pgn header.source_address da)
      else
        none

/-- Exchanging the `remote_address` and `local_address` fields of a TPCM
message (the "wire view" seen by the other end of the link). -/
def TPCM.swap_addresses : TPCM → TPCM
  | .Rts ms pc mpc p remote loc => .Rts ms pc mpc p loc remote
  | .Cts ep npn p remote loc => .Cts ep npn p loc remote
  | .EndOfMsg ms pc p remote loc => .EndOfMsg ms pc p loc remote
  | .Abort r p remote loc => .Abort r p loc remote
  | .Bam ms pc p remote loc => .Bam ms pc p loc remote

/-- Field bounds from the Rust types (`message_size: u16`, PGN within 24 bits
of its 3 wire bytes), plus the global destination an encoded BAM must carry
to decode as a BAM. -/
def TPCM.wf : TPCM → Prop
  | .Rts ms _ _ p _ _ => ms < 65536 ∧ p.raw < 16777216
  | .Cts _ _ p _ _ => p.raw < 16777216
  | .EndOfMsg ms _ p _ _ => ms < 65536 ∧ p.raw < 16777216
  | .Abort _ p _ _ => p.raw < 16777216
  | .Bam ms _ p remote _ => ms < 65536 ∧ p.raw < 16777216 ∧ remote = 255

/-! ## Transport packager (`src/transport/transport_packager.rs`)

`Vec<u8>` reassembly buffers are modelled as a byte list plus an explicit
`cap` field holding the `Vec::with_capacity` argument: the code uses
`data.capacity()` as the advertised transfer size and, on the paths modelled
here, never extends the buffer past it. -/

structure VecBuf where
  data : List Nat
  cap : Nat
deriving DecidableEq

structure BroadcastReceier where
  data : VecBuf
  pgn : PGN
  priority : Nat
  last_packet_index : Nat
deriving DecidableEq

structure BroadcastSender where
  pdu : Frame
  last_packet_index : Nat
  packet_count : Nat
deriving DecidableEq

structure P2PReceier where
  data : VecBuf
  pgn : PGN
  priority : Nat
  max_packets_per_cts : Nat
  last_packet_index : Nat
  last_requested_index : Nat
deriving DecidableEq

structure P2PSender where
  pdu : Frame
  last_packet_index : Nat
  send_till_index : Nat
deriving DecidableEq

structure TransportPackager where
  in_broadcast : List (Nat × BroadcastReceier)
  out_broadcast : Option BroadcastSender
  in_p2p : List ((Nat × Nat) × P2PReceier)
  out_p2p : List ((Nat × Nat) × P2PSender)
deriving DecidableEq

/-- `TransportPackager::new`. -/
def TransportPackager.new : TransportPackager :=
  { in_broadcast := [], out_broadcast := none, in_p2p := [], out_p2p := [] }

/-- `TransportPackager::process_tpcm`. The returned list holds the frames the
function transmits on the CAN driver, in order. -/
def TransportPackager.process_tpcm (tp : TransportPackager) (tpcm : TPCM) :
    TransportPackager × List Frame :=
  match tpcm with
  | .Rts ms _pc mpc p remote loc =>
    if mapContains tp.in_p2p (remote, loc) then
      (tp, [(TPCM.Abort .AlreadyConnected p remote loc).to_frame])
    else
      ({ tp with in_p2p := (mapInsert tp.in_p2p (remote, loc)
          { data := ⟨[], ms⟩, pgn := p, priority := 0, max_packets_per_cts := mpc,
            last_packet_index := 0, last_requested_index := 0 }) },
       [(TPCM.Cts mpc 1 p remote loc).to_frame])
  | .Cts ep npn _p remote loc =>
    match mapGet tp.out_p2p (loc, remote) with
    | some sender =>
      let lpi := npn - 1
      ({ tp with out_p2p := (mapInsert tp.out_p2p (loc, remote)
          { sender with last_packet_index := lpi, send_till_index := lpi + ep }) }, [])
    | none => (tp, [])
  | .EndOfMsg _ms _pc _p remote loc =>
    ({ tp with out_p2p := mapRemove tp.out_p2p (remote, loc) }, [])
  | .Abort _r p remote loc =>
    let tp1 :=
      match mapGet tp.in_p2p (loc, remote) with
      | some transfer =>
        if transfer.pgn = p then { tp with in_p2p := mapRemove tp.in_p2p (loc, remote) }
        else tp
      | none => tp
    let tp2 :=
      match mapGet tp1.out_p2p (remote, loc) with
      | some transfer =>
        if transfer.pdu.header.pgn = p then
          { tp1 with out_p2p := mapRemove tp1.out_p2p (remote, loc) }
        else tp1
      | none => tp1
    (tp2, [])
  | .Bam ms _pc p remote _loc =>
    if mapContains tp.in_broadcast remote then (tp, [])
    else
      ({ tp with in_broadcast := (mapInsert tp.in_broadcast remote
          { data := ⟨[], ms⟩, pgn := p, priority := 0, last_packet_index := 0 }) }, [])

/-- `TransportPackager::process_tpdt`. Returns the new state, the frames
transmitted on the CAN driver, and the reassembled frame if the transfer
completed. -/
def TransportPackager.process_tpdt (tp : TransportPackager) (tpdt : TPDT) :
    TransportPackager × List Frame × Option Frame :=
  if tpdt.local_address = 0xFF then
    match mapGet tp.in_broadcast tpdt.remote_address with
    | some rec1 =>
      if rec1.last_packet_index + 1 = tpdt.sequence_number then
        let rec2 := { rec1 with last_packet_index := rec1.last_packet_index + 1 }
        let missing_bytes := rec2.data.cap - rec2.data.data.length
        if missing_bytes ≤ 8 then
          let entry := { rec2 with
            data := ⟨rec2.data.data ++ tpdt.data.take missing_bytes, rec2.data.cap⟩ }
          ({ tp with in_broadcast := mapRemove tp.in_broadcast tpdt.remote_address }, [],
           some { header := { pgn := entry.pgn, priority := entry.priority,
                              source_address := tpdt.remote_address,
                              destination_address := some tpdt.local_address }
                  data := entry.data.data })
        else
          ({ tp with in_broadcast := (mapInsert tp.in_broadcast tpdt.remote_address
              { rec2 with data := ⟨rec2.data.data ++ tpdt.data, rec2.data.cap⟩ }) }, [], none)
      else
        ({ tp with in_broadcast := mapRemove tp.in_broadcast tpdt.remote_address }, [], none)
    | none => (tp, [], none)
  else
    match mapGet tp.in_p2p (tpdt.remote_address, tpdt.local_address) with
    | some rec1 =>
      if rec1.last_packet_index + 1 = tpdt.sequence_number then
        let rec2 := { rec1 with last_packet_index := rec1.last_packet_index + 1 }
        let missing_bytes := rec2.data.cap - rec2.data.data.length
        if missing_bytes ≤ 8 then
          let entry := { rec2 with
            data := ⟨rec2.data.data ++ tpdt.data.take missing_bytes, rec2.data.cap⟩ }
          let received_bytes := entry.data.data.length
          ({ tp with in_p2p := mapRemove tp.in_p2p (tpdt.remote_address, tpdt.local_address) },
           [(TPCM.EndOfMsg (received_bytes % 65536) entry.last_packet_index entry.pgn
              tpdt.remote_address tpdt.local_address).to_frame],
           some { header := { pgn := entry.pgn, priority := entry.priority,
                              source_address := tpdt.remote_address,
                              destination_address := some tpdt.local_address }
                  data := entry.data.data })
        else
          let rec3 := { rec2 with data := ⟨rec2.data.data ++ tpdt.data, rec2.data.cap⟩ }
          if rec3.last_requested_index + rec3.max_packets_per_cts = rec3.last_packet_index then
            ({ tp with in_p2p := (mapInsert tp.in_p2p (tpdt.remote_address, tpdt.local_address)
                { rec3 with
                  last_requested_index := rec3.last_requested_index + rec3.max_packets_per_cts }) },
             [(TPCM.Cts rec3.max_packets_per_cts (rec3.last_packet_index + 1) rec3.pgn
                tpdt.remote_address tpdt.local_address).to_frame], none)
          else
            ({ tp with in_p2p := (mapInsert tp.in_p2p (tpdt.remote_address, tpdt.local_address)
                rec3) }, [], none)
      else
        -- Abort wrong Sequence Number (note: the session removal targets
        -- `in_broadcast`, exactly as in the source)
        ({ tp with in_broadcast := mapRemove tp.in_broadcast tpdt.remote_address },
         [(TPCM.Abort .UnexpectedTransfer rec1.pgn tpdt.remote_address
            tpdt.local_address).to_frame], none)
    | none =>
      (tp, [(TPCM.Abort .UnexpectedTransfer (PGN.new 0xFFFFFFFF) tpdt.remote_address
          tpdt.local_address).to_frame], none)

/-- `TransportPackager::new_out_transfer`. `none` models the
`destination_address().unwrap()` panic on a non-broadcast frame without a
destination. The returned list holds the transmitted control frames. -/
def TransportPackager.new_out_transfer (tp : TransportPackager) (pdu : Frame) :
    Option (TransportPackager × List Frame) :=
  let bytes_to_send := pdu.data.length % 65536
  let packets_to_send := (pdu.data.length + 7) / 8 % 256
  if pdu.header.pgn.is_broadcast ∨ pdu.header.destination_address = some 0xFF then
    some ({ tp with out_broadcast := (some
        { pdu := pdu, last_packet_index := 0, packet_count := packets_to_send }) },
      [(TPCM.Bam bytes_to_send packets_to_send pdu.header.pgn 0xFF
          pdu.header.source_address).to_frame])
  else
    match pdu.header.destination_address with
    | some da =>
      some ({ tp with out_p2p := (mapInsert tp.out_p2p (pdu.header.source_address, da)
          { pdu := pdu, last_packet_index := 0, send_till_index := 0 }) },
        [(TPCM.Rts bytes_to_send packets_to_send 1 pdu.header.pgn da
            pdu.header.source_address).to_frame])
    | none => none

/-! ## Stack dispatcher pieces (`src/stack.rs`)

Only the state touched by the send-queue drain loop of
`Stack::process_control_functions` is modelled: the stack's own received
queue, the accept-all flag and the address monitor. Frames handed to
`Stack::send_frame` are recorded in an event list. -/

structure StackCore where
  received_frames : List Frame
  accept_all_da : Bool
  address_monitor : AddressMonitor
deriving DecidableEq

/-- `Stack::handle_new_frame_stack`. `none` models a panic inside the address
monitor's frame decode. -/
def handle_new_frame_stack (st : StackCore) (frame : Frame) : Option StackCore :=
  let monitor2 :=
    if frame.header.pgn = PGN_ADDRESSCLAIM ∨ frame.header.pgn = PGN_REQUEST then
      st.address_monitor.handle_frame frame
    else
      some st.address_monitor
  match monitor2 with
  | none => none
  | some m =>
    let st1 := { st with address_monitor := m }
    match frame.header.destination_address with
    | some da =>
      if da = 0xFF ∨ st1.accept_all_da then
        some { st1 with received_frames := force_push st1.received_frames frame }
      else
        some st1
    | none => some { st1 with received_frames := force_push st1.received_frames frame }

/-- The inner fan-out loop of `Stack::process_control_functions`:
`for receiver_index in 0..self.cf.len() { if cf_index == receiver_index
{ continue; } self.cf[cf_index].handle_new_frame(&frame); }` —
note that the call targets index `cf_index`, exactly as in the source. -/
def distribute_frame (cfs : List ControlFunction) (cf_index : Nat) (frame : Frame)
    (now : Nat) : Option (List ControlFunction) :=
  (List.range cfs.length).foldlM
    (fun acc receiver_index =>
      if cf_index = receiver_index then
        some acc
      else
        match acc.get? cf_index with
        | some cf => (cf.handle_new_frame frame now).map (fun cf2 => acc.set cf_index cf2)
        | none => none)
    cfs

/-- The `while let Some(frame) = self.cf[cf_index].send_queue.pop()` drain
loop of `Stack::process_control_functions` for one control function. Returns
the control functions, the stack state, and the frames passed to
`Stack::send_frame`, in order. `none` models either a panic on the way or
fuel exhaustion. -/
def drain_cf_send_queue (fuel : Nat) (cfs : List ControlFunction) (cf_index : Nat)
    (st : StackCore) (sent : List Frame) (now : Nat) :
    Option (List ControlFunction × StackCore × List Frame) :=
  match fuel with
  | 0 => none
  | fuel + 1 =>
    match cfs.get? cf_index with
    | none => none
    | some cf =>
      match cf.send_queue with
      | [] => some (cfs, st, sent)
      | frame :: rest =>
        let cfs1 := cfs.set cf_index { cf with send_queue := rest }
        match distribute_frame cfs1 cf_index frame now with
        | none => none
        | some cfs2 =>
          match handle_new_frame_stack st frame with
          | none => none
          | some st2 => drain_cf_send_queue fuel cfs2 cf_index st2 (sent ++ [frame]) now

/-! ## Concrete inputs used by the claim theorems and witnesses -/

/-- Monitor map occupying exactly the addresses 127..=146 (the whole address
re-selection window, which also contains the preferred address 0x85 = 133). -/
def occupiedWindowMonitor : AddressMonitor :=
  ⟨(List.range 20).map (fun i => (127 + i, ⟨0, false⟩))⟩

/-- A configurable CF that issued the AddressClaim request at t = 0. -/
def requestedCF : ControlFunction :=
  { name := ⟨200, true⟩, send_queue := [], receive_queue := [],
    address_state := .Requested 0, address := 0x85, address_configurable := true }

/-- A configurable CF holding address 133 in state `AddressClaimed`. -/
def claimedCF : ControlFunction :=
  { name := ⟨5000, true⟩, send_queue := [], receive_queue := [],
    address_state := .AddressClaimed, address := 133, address_configurable := true }

/-- A contesting AddressClaim frame at address 133 whose NAME decodes to 0. -/
def contestingClaimFrame : Frame :=
  { header := { pgn := PGN_ADDRESSCLAIM, priority := 6, source_address := 133,
                destination_address := some 255 }
    data := [0, 0, 0, 0, 0, 0, 0, 0] }

/-- A 15-byte peer-to-peer frame (0x90 → 0x9B, PGN 0xDF00). -/
def longP2PFrame15 : Frame :=
  { header := { pgn := PGN.new 0xDF00, priority := 0, source_address := 0x90,
                destination_address := some 0x9B }
    data := List.replicate 15 1 }

/-- A 20-byte peer-to-peer frame (0x90 → 0x9B, PGN 0xDF00). -/
def longP2PFrame20 : Frame :=
  { header := { pgn := PGN.new 0xDF00, priority := 0, source_address := 0x90,
                destination_address := some 0x9B }
    data := List.replicate 20 1 }

/-- The packager state right after `new_out_transfer` created the outbound
peer-to-peer session for `longP2PFrame20`. -/
def outSenderState : TransportPackager :=
  ((TransportPackager.new.new_out_transfer longP2PFrame20).getD
    (TransportPackager.new, [])).1

/-- A packager holding one peer-to-peer receive session from 0x9B to 0x90
(20 bytes advertised, no packet received yet). -/
def p2pRxState : TransportPackager :=
  { in_broadcast := [], out_broadcast := none,
    in_p2p := [((0x9B, 0x90),
      { data := ⟨[], 20⟩, pgn := PGN.new 0xDF00, priority := 0,
        max_packets_per_cts := 1, last_packet_index := 0, last_requested_index := 0 })],
    out_p2p := [] }

/-- A TPDT for that session whose sequence number 2 is out of order
(expected: `last_packet_index + 1 = 1`). -/
def outOfOrderTPDT : TPDT :=
  { remote_address := 0x9B, local_address := 0x90, sequence_number := 2,
    data := [1, 2, 3, 4, 5, 6, 7] }

/-- A short broadcast data frame on a plain data PGN. -/
def broadcastDataFrame : Frame :=
  { header := { pgn := PGN.new 0xFEB2, priority := 0, source_address := 0x85,
                destination_address := none }
    data := [1, 2, 3] }

/-- A CF (index 0) with `broadcastDataFrame` queued for sending. -/
def senderCF : ControlFunction :=
  { name := ⟨100, false⟩, send_queue := [broadcastDataFrame], receive_queue := [],
    address_state := .AddressClaimed, address := 0x85, address_configurable := false }

/-- A second registered CF (index 1) with empty queues. -/
def otherCF : ControlFunction :=
  { name := ⟨101, false⟩, send_queue := [], receive_queue := [],
    address_state := .AddressClaimed, address := 0x90, address_configurable := false }

/-- A fresh stack state (no received frames, accept-all off, empty monitor). -/
def initialStackCore : StackCore :=
  { received_frames := [], accept_all_da := false, address_monitor := ⟨[]⟩ }

/-- The sample BAM control message of the codec tests (remote 0xFF, local 0x32). -/
def sampleBam : TPCM := .Bam 20 3 (PGN.new 0xFEB0) 255 0x32

/-- An ingress TP-CM header from 0x90 to 0x9B. -/
def invalidTpcmHeader : Header :=
  { pgn := PGN_TP_CM, priority := 7, source_address := 0x90,
    destination_address := some 0x9B }

/-- A peer-to-peer header whose PDU-format byte is exactly 240: `is_broadcast`
(the `> 240` test) classifies it as peer-to-peer, so the validity invariant
demands a destination address, but the id parser (the `>= 240` test) decodes
the encoded id as broadcast. -/
def boundaryHeader : Header :=
  { pgn := PGN.new 0xF000, priority := 0, source_address := 0,
    destination_address := some 1 }

/-- A REQUEST frame whose payload is 2 bytes instead of 3. -/
def shortRequestFrame : Frame :=
  { header := { pgn := PGN_REQUEST, priority := 3, source_address := 0x80,
                destination_address := some 0xFF }
    data := [0, 0xEE] }

/-! ## Nat bit-manipulation toolkit (used for the 29-bit header codec) -/

theorem land_mod_two_pow (x n : Nat) : x &&& (2 ^ n - 1) = x % 2 ^ n := by
  apply Nat.eq_of_testBit_eq
  intro i
  rw [Nat.testBit_land, Nat.testBit_two_pow_sub_one, Nat.testBit_mod_two_pow, Bool.and_comm]

theorem land_eq_self_of_lt (x n : Nat) (h : x < 2 ^ n) : x &&& (2 ^ n - 1) = x := by
  rw [land_mod_two_pow]
  exact Nat.mod_eq_of_lt h

theorem land_shiftLeft_eq_zero (a b n : Nat) (h : a < 2 ^ n) : a &&& (b <<< n) = 0 := by
  apply Nat.eq_of_testBit_eq
  intro i
  rw [Nat.testBit_land, Nat.testBit_shiftLeft, Nat.zero_testBit]
  by_cases hi : n ≤ i
  · have hlt : a < 2 ^ i := lt_of_lt_of_le h (Nat.pow_le_pow_right (by norm_num) hi)
    simp [Nat.testBit_lt_two_pow hlt]
  · simp [hi]

theorem shiftLeft_land_eq_zero (a b n : Nat) (h : b < 2 ^ n) : (a <<< n) &&& b = 0 := by
  rw [Nat.land_comm]
  exact land_shiftLeft_eq_zero b a n h

theorem shiftRight_lor (a b n : Nat) : (a ||| b) >>> n = (a >>> n) ||| (b >>> n) := by
  apply Nat.eq_of_testBit_eq
  intro i
  simp [Nat.testBit_shiftRight, Nat.testBit_lor]

theorem land_lor_right (a b c : Nat) : (a ||| b) &&& c = (a &&& c) ||| (b &&& c) := by
  apply Nat.eq_of_testBit_eq
  intro i
  simp only [Nat.testBit_land, Nat.testBit_lor]
  cases a.testBit i <;> cases b.testBit i <;> cases c.testBit i <;> rfl

theorem shiftLeft_land_shiftLeft (a b n : Nat) :
    (a <<< n) &&& (b <<< n) = (a &&& b) <<< n := by
  apply Nat.eq_of_testBit_eq
  intro i
  simp only [Nat.testBit_land, Nat.testBit_shiftLeft]
  by_cases hi : n ≤ i <;> simp [hi, Nat.testBit_land]

theorem shiftLeft_shiftRight_of_le (x m n : Nat) (h : m ≤ n) :
    (x <<< m) >>> n = x >>> (n - m) := by
  apply Nat.eq_of_testBit_eq
  intro i
  rw [Nat.testBit_shiftRight, Nat.testBit_shiftLeft, Nat.testBit_shiftRight]
  have hle : m ≤ n + i := le_trans h (Nat.le_add_right n i)
  simp only [hle, decide_True, Bool.true_and]
  congr 1
  omega

theorem shiftLeft_shiftRight_of_ge (x m n : Nat) (h : n ≤ m) :
    (x <<< m) >>> n = x <<< (m - n) := by
  apply Nat.eq_of_testBit_eq
  intro i
  rw [Nat.testBit_shiftRight, Nat.testBit_shiftLeft, Nat.testBit_shiftLeft]
  by_cases hmn : m ≤ n + i
  · have h1 : m - n ≤ i := by omega
    simp only [hmn, decide_True, Bool.true_and, h1]
    congr 1
    omega
  · have h1 : ¬ (m - n ≤ i) := by omega
    simp [hmn, h1]

theorem shiftLeft_shiftRight_self (x n : Nat) : (x <<< n) >>> n = x := by
  rw [shiftLeft_shiftRight_of_le x n n (le_refl n), Nat.sub_self, Nat.shiftRight_zero]

theorem shiftRight_eq_zero_of_lt (x n : Nat) (h : x < 2 ^ n) : x >>> n = 0 := by
  rw [Nat.shiftRight_eq_div_pow]
  exact Nat.div_eq_of_lt h

/-! ## Helper lemmas -/

theorem reason_roundtrip (r : AbortReason) : AbortReason.from_u8 r.to_u8 = r := by
  cases r <;> rfl

/-- Evaluation of `TPCM.from_frame` on an explicit 8-byte payload. -/
theorem tpcm_from_frame_explicit (hp : PGN) (pr sa da b0 b1 b2 b3 b4 b5 b6 b7 : Nat) :
    TPCM.from_frame ⟨hp, pr, sa, some da⟩ [b0, b1, b2, b3, b4, b5, b6, b7] =
      (if da = 0xFF ∧ b0 = 32 then
        some (.Bam (b1 + 256 * b2) b3 (PGN.new (b5 + 256 * b6 + 65536 * b7)) sa da)
      else if b0 = 16 then
        some (.Rts (b1 + 256 * b2) b3 b4 (PGN.new (b5 + 256 * b6 + 65536 * b7)) sa da)
      else if b0 = 17 then
        some (.Cts b1 b2 (PGN.new (b5 + 256 * b6 + 65536 * b7)) sa da)
      else if b0 = 19 then
        some (.EndOfMsg (b1 + 256 * b2) b3 (PGN.new (b5 + 256 * b6 + 65536 * b7)) sa da)
      else if b0 = 255 then
        some (.Abort (AbortReason.from_u8 b1) (PGN.new (b5 + 256 * b6 + 65536 * b7)) sa da)
      else none) := rfl

theorem u16_le_recombine (ms : Nat) (h : ms < 65536) :
    ms % 256 + 256 * ((ms >>> 8) % 256) = ms := by
  rw [Nat.shiftRight_eq_div_pow]
  omega

theorem u24_le_recombine (p : Nat) (h : p < 16777216) :
    p % 256 + 256 * ((p >>> 8) % 256) + 65536 * ((p >>> 16) % 256) = p := by
  rw [Nat.shiftRight_eq_div_pow, Nat.shiftRight_eq_div_pow]
  omega

theorem land_255 (x : Nat) : x &&& 255 = x % 256 := by
  have e : (255 : Nat) = 2 ^ 8 - 1 := by norm_num
  rw [e, land_mod_two_pow]
  norm_num

/-- Parsing the encoded id of a valid broadcast header (PDU format at least
240 at the codec boundary). -/
theorem from_u32_broadcast_encode (sa p pr : Nat) (hsa : sa < 256) (hp : p < 262144)
    (hpr : pr ≤ 7) (hpf : 240 ≤ (p >>> 8) &&& 255) :
    Header.from_u32 ((sa ||| (p <<< 8) % 2 ^ 32) ||| (pr <<< 26) % 2 ^ 32) =
      { pgn := ⟨p⟩, priority := pr, source_address := sa,
        destination_address := none } := by
  have hm1 : (p <<< 8) % 2 ^ 32 = p <<< 8 :=
    Nat.mod_eq_of_lt (by rw [Nat.shiftLeft_eq]; omega)
  have hm2 : (pr <<< 26) % 2 ^ 32 = pr <<< 26 :=
    Nat.mod_eq_of_lt (by rw [Nat.shiftLeft_eq]; omega)
  rw [hm1, hm2]
  have hps26 : (p <<< 8) >>> 26 = 0 := by
    rw [shiftLeft_shiftRight_of_le p 8 26 (by norm_num)]
    exact shiftRight_eq_zero_of_lt p 18 (by omega)
  have f16 : (((sa ||| p <<< 8) ||| pr <<< 26) >>> 16) &&& 255 = (p >>> 8) &&& 255 := by
    rw [shiftRight_lor, shiftRight_lor,
      shiftRight_eq_zero_of_lt sa 16 (by omega),
      shiftLeft_shiftRight_of_le p 8 16 (by norm_num),
      shiftLeft_shiftRight_of_ge pr 26 16 (by norm_num),
      Nat.zero_or, land_lor_right,
      shiftLeft_land_eq_zero pr 255 (26 - 16) (by norm_num),
      Nat.or_zero]
  have fpgn : (((sa ||| p <<< 8) ||| pr <<< 26) >>> 8) &&& 262143 = p := by
    rw [shiftRight_lor, shiftRight_lor,
      shiftRight_eq_zero_of_lt sa 8 (by omega),
      shiftLeft_shiftRight_self,
      shiftLeft_shiftRight_of_ge pr 26 8 (by norm_num),
      Nat.zero_or, land_lor_right,
      shiftLeft_land_eq_zero pr 262143 (26 - 8) (by norm_num),
      Nat.or_zero,
      (by norm_num : (262143 : Nat) = 2 ^ 18 - 1),
      land_eq_self_of_lt p 18 (by omega)]
  have fsa : ((sa ||| p <<< 8) ||| pr <<< 26) % 256 = sa := by
    rw [← land_255, land_lor_right, land_lor_right,
      shiftLeft_land_eq_zero p 255 8 (by norm_num),
      shiftLeft_land_eq_zero pr 255 26 (by norm_num),
      Nat.or_zero, Nat.or_zero, land_255]
    omega
  have fpr : ((((sa ||| p <<< 8) ||| pr <<< 26) >>> 26) % 256) &&& 7 = pr := by
    rw [shiftRight_lor, shiftRight_lor,
      shiftRight_eq_zero_of_lt sa 26 (by omega),
      hps26, shiftLeft_shiftRight_self, Nat.zero_or, Nat.zero_or,
      Nat.mod_eq_of_lt (show pr < 256 by omega),
      (by norm_num : (7 : Nat) = 2 ^ 3 - 1),
      land_eq_self_of_lt pr 3 (by omega)]
  unfold Header.from_u32
  rw [f16, if_pos hpf, fpgn, fsa, fpr]
  rfl

/-- Parsing the encoded id of a valid peer-to-peer header (PDU format below
240, PGN low byte zero). -/
theorem from_u32_p2p_encode (sa d p pr : Nat) (hsa : sa < 256) (hd : d < 256)
    (hp : p < 262144) (hq : p % 256 = 0) (hpr : pr ≤ 7)
    (hpf : ¬ 240 ≤ (p >>> 8) &&& 255) :
    Header.from_u32
        (((sa ||| (p <<< 8) % 2 ^ 32) ||| (d <<< 8) % 2 ^ 32) |||
          (pr <<< 26) % 2 ^ 32) =
      { pgn := ⟨p⟩, priority := pr, source_address := sa,
        destination_address := some d } := by
  have hm1 : (p <<< 8) % 2 ^ 32 = p <<< 8 :=
    Nat.mod_eq_of_lt (by rw [Nat.shiftLeft_eq]; omega)
  have hm2 : (pr <<< 26) % 2 ^ 32 = pr <<< 26 :=
    Nat.mod_eq_of_lt (by rw [Nat.shiftLeft_eq]; omega)
  have hm3 : (d <<< 8) % 2 ^ 32 = d <<< 8 :=
    Nat.mod_eq_of_lt (by rw [Nat.shiftLeft_eq]; omega)
  rw [hm1, hm2, hm3]
  have hps26 : (p <<< 8) >>> 26 = 0 := by
    rw [shiftLeft_shiftRight_of_le p 8 26 (by norm_num)]
    exact shiftRight_eq_zero_of_lt p 18 (by omega)
  have hds16 : (d <<< 8) >>> 16 = 0 := by
    rw [shiftLeft_shiftRight_of_le d 8 16 (by norm_num)]
    exact shiftRight_eq_zero_of_lt d 8 (by omega)
  have hds26 : (d <<< 8) >>> 26 = 0 := by
    rw [shiftLeft_shiftRight_of_le d 8 26 (by norm_num)]
    exact shiftRight_eq_zero_of_lt d 18 (by omega)
  have f16 : ((((sa ||| p <<< 8) ||| d <<< 8) ||| pr <<< 26) >>> 16) &&& 255 =
      (p >>> 8) &&& 255 := by
    rw [shiftRight_lor, shiftRight_lor, shiftRight_lor,
      shiftRight_eq_zero_of_lt sa 16 (by omega),
      shiftLeft_shiftRight_of_le p 8 16 (by norm_num),
      hds16,
      shiftLeft_shiftRight_of_ge pr 26 16 (by norm_num),
      Nat.zero_or, Nat.or_zero, land_lor_right,
      shiftLeft_land_eq_zero pr 255 (26 - 16) (by norm_num),
      Nat.or_zero]
  have hpq : p = (p / 256) <<< 8 := by
    rw [Nat.shiftLeft_eq]
    omega
  have fpgn : ((((sa ||| p <<< 8) ||| d <<< 8) ||| pr <<< 26) >>> 8) &&& 261888 = p := by
    rw [shiftRight_lor, shiftRight_lor, shiftRight_lor,
      shiftRight_eq_zero_of_lt sa 8 (by omega),
      shiftLeft_shiftRight_self, shiftLeft_shiftRight_self,
      shiftLeft_shiftRight_of_ge pr 26 8 (by norm_num),
      Nat.zero_or, land_lor_right, land_lor_right,
      shiftLeft_land_eq_zero pr 261888 (26 - 8) (by norm_num),
      Nat.or_zero,
      (by norm_num [Nat.shiftLeft_eq] : (261888 : Nat) = 1023 <<< 8),
      land_shiftLeft_eq_zero d 1023 8 (by omega),
      Nat.or_zero]
    conv_lhs => rw [hpq]
    rw [shiftLeft_land_shiftLeft,
      (by norm_num : (1023 : Nat) = 2 ^ 10 - 1),
      land_eq_self_of_lt (p / 256) 10 (by omega)]
    exact hpq.symm
  have fda : ((((sa ||| p <<< 8) ||| d <<< 8) ||| pr <<< 26) >>> 8) % 256 = d := by
    rw [← land_255, shiftRight_lor, shiftRight_lor, shiftRight_lor,
      shiftRight_eq_zero_of_lt sa 8 (by omega),
      shiftLeft_shiftRight_self, shiftLeft_shiftRight_self,
      shiftLeft_shiftRight_of_ge pr 26 8 (by norm_num),
      Nat.zero_or, land_lor_right, land_lor_right,
      shiftLeft_land_eq_zero pr 255 (26 - 8) (by norm_num),
      Nat.or_zero, land_255 p, hq, land_255 d, Nat.zero_or,
      Nat.mod_eq_of_lt hd]
  have fsa : (((sa ||| p <<< 8) ||| d <<< 8) ||| pr <<< 26) % 256 = sa := by
    rw [← land_255, land_lor_right, land_lor_right, land_lor_right,
      shiftLeft_land_eq_zero p 255 8 (by norm_num),
      shiftLeft_land_eq_zero d 255 8 (by norm_num),
      shiftLeft_land_eq_zero pr 255 26 (by norm_num),
      Nat.or_zero, Nat.or_zero, Nat.or_zero, land_255]
    omega
  have fpr : (((((sa ||| p <<< 8) ||| d <<< 8) ||| pr <<< 26) >>> 26) % 256) &&& 7 =
      pr := by
    rw [shiftRight_lor, shiftRight_lor, shiftRight_lor,
      shiftRight_eq_zero_of_lt sa 26 (by omega),
      hps26, hds26, shiftLeft_shiftRight_self,
      Nat.zero_or, Nat.zero_or, Nat.zero_or,
      Nat.mod_eq_of_lt (show pr < 256 by omega),
      (by norm_num : (7 : Nat) = 2 ^ 3 - 1),
      land_eq_self_of_lt pr 3 (by omega)]
  unfold Header.from_u32
  rw [f16, if_neg hpf, fpgn, fsa, fpr, fda]
  rfl

/-! ## Claim theorems -/

/-- C1: in state `Requested(0)` at `now = 1501` with the monitor occupying the
preferred address 0x85 and the whole re-selection window 127..=146, the claim
says the CF must enter `CannotClaim` and push a CannotClaim frame. The code's
scan loop (`while contains_key(n) || n >= 147 { n += 1 }`) can only exit at a
free address `< 147`, so the `CannotClaim` branch behind it is unreachable:
the scan wraps around the `u8` range and the CF claims address 0 — outside
the window — and enters `WaitForVeto(1501)` instead. -/
theorem C1_full_window_does_not_cannotclaim :
    (requestedCF.process occupiedWindowMonitor 1501).map
        (fun cf => (cf.address_state, cf.address, cf.send_queue)) =
      some (AddressState.WaitForVeto 1501, 0, [addressclaim_frame 0 ⟨200, true⟩]) ∧
    (requestedCF.process occupiedWindowMonitor 1501).map ControlFunction.address_state ≠
      some AddressState.CannotClaim := by
  decide

/-- C4: `new_out_transfer` computes the packet count as `(len + 7) / 8`
(the comment in the source says "ceil division", and the payload is cut into
7-byte TPDT slices), so for the 15-byte frame the emitted RTS carries
packet_count 2 while `ceil(15 / 7) = 3`. -/
theorem C4_packet_count_not_ceil_div7 :
    (TransportPackager.new.new_out_transfer longP2PFrame15).map
        (fun r => r.2.map (fun fr => fr.data.getD 3 0)) = some [2] ∧
    (15 + 6) / 7 = 3 := by
  decide

/-- C5: after `new_out_transfer` creates the outbound session keyed
`(source, destination) = (0x90, 0x9B)`, an ingress EndOfMsg from 0x9B to 0x90
(`remote = 0x9B`, `local = 0x90`) removes key `(remote, local) = (0x9B, 0x90)`
and an ingress Abort looks up the same swapped key, so neither touches the
session: the packager state is unchanged, contradicting the claim that the
sender session is destroyed. -/
theorem C5_sender_session_survives :
    mapGet outSenderState.out_p2p (0x90, 0x9B) =
      some { pdu := longP2PFrame20, last_packet_index := 0, send_till_index := 0 } ∧
    (outSenderState.process_tpcm
      (.EndOfMsg 20 3 (PGN.new 0xDF00) 0x9B 0x90)).1 = outSenderState ∧
    (outSenderState.process_tpcm
      (.Abort .NoResources (PGN.new 0xDF00) 0x9B 0x90)).1 = outSenderState := by
  decide

/-- C6: an out-of-order TPDT (sequence 2 where 1 was expected) on the
peer-to-peer receive session from 0x9B to 0x90 makes the packager transmit
Abort(UnexpectedTransfer), but the removal that follows targets
`in_broadcast` instead of `in_p2p`, so the peer-to-peer receive session
survives: the state is unchanged, contradicting the claim that the session
is removed. -/
theorem C6_rx_session_survives_after_abort :
    (p2pRxState.process_tpdt outOfOrderTPDT).2.1 =
      [(TPCM.Abort .UnexpectedTransfer (PGN.new 0xDF00) 0x9B 0x90).to_frame] ∧
    (p2pRxState.process_tpdt outOfOrderTPDT).1 = p2pRxState := by
  decide

/-- C7: draining the send queue of CF 0 (two CFs registered) passes the frame
to `Stack::send_frame` (the event list), but the fan-out loop writes every
delivery to `self.cf[cf_index]` — the sender: CF 0 receives its own frame on
its receive queue and CF 1 receives nothing, contradicting the claim that
every CF other than the sender gets a copy and the sender none. -/
theorem C7_loopback_hits_sender_not_others :
    drain_cf_send_queue 5 [senderCF, otherCF] 0 initialStackCore [] 0 =
      some ([{ senderCF with send_queue := [], receive_queue := [broadcastDataFrame] },
             otherCF],
            { initialStackCore with received_frames := [broadcastDataFrame] },
            [broadcastDataFrame]) := by
  decide

/-- C3 counterexample: encoding the BAM `sampleBam` (remote 0xFF, local 0x32)
and decoding the resulting frame does not return `sampleBam`: the decoder
reads `remote_address` from the frame's source address (which the encoder set
to `local_address`), so the two address fields come back swapped. -/
theorem C3_counterexample_addresses_swap :
    TPCM.from_frame sampleBam.to_frame.header sampleBam.to_frame.data ≠
      some sampleBam := by
  decide

/-- C9 counterexample: an ingress TP-CM frame whose control byte 18 is none
of 16/17/19/32/255 makes `TPCM::from_frame` hit
`panic!("TPCM Message with invalid control byte")` (modelled as `none`),
so handling such a frame does crash rather than reject it. -/
theorem C9_counterexample_control_byte_panics :
    TPCM.from_frame invalidTpcmHeader [18, 0, 0, 0, 0, 0, 0, 0] = none ∧
    (18 ≠ 16 ∧ 18 ≠ 17 ∧ 18 ≠ 19 ∧ 18 ≠ 32 ∧ 18 ≠ 255) := by
  decide

/-- C8 counterexample: `boundaryHeader` has priority 0 and satisfies the
claim's validity invariant (its PGN 0xF000 has PDU-format byte 240, which the
`> 240` broadcast test classifies as peer-to-peer, and a destination address
is present), yet parsing its encoded 29-bit id does not return it: the parser
uses `>= 240` and decodes a broadcast header with PGN 0xF001. -/
theorem C8_counterexample_pdu_format_240 :
    (boundaryHeader.priority ≤ 7 ∧
      (boundaryHeader.destination_address = none ↔ boundaryHeader.pgn.is_broadcast)) ∧
    Header.from_u32 boundaryHeader.to_u32 ≠ boundaryHeader := by
  decide

/-- C2: in state `AddressClaimed` or `WaitForVeto`, an ingress AddressClaim
from the CF's own address whose little-endian NAME is lower than the CF's
NAME makes a configurable CF move to address 128 (when the current address is
below 128 or at least 247) or to address+1, emit an AddressClaim and enter
`WaitForVeto(now)`; a non-configurable CF enters `CannotClaim` and emits a
CannotClaim frame; in neither case does the CF remain `AddressClaimed` on the
contested address. -/
theorem C2_lower_name_conflict (cf : ControlFunction) (frame : Frame) (now : Nat)
    (hstate : cf.address_state.claimed_or_veto = true)
    (hsa : frame.header.source_address = cf.address)
    (hlen : frame.data.length = 8)
    (hlt : from_le_bytes frame.data < cf.name.raw) :
    ∃ cf2, cf.handle_addressclaim frame now = some cf2 ∧
      (cf.address_configurable = true →
        cf2.address =
          (if cf.address < 128 ∨ 247 ≤ cf.address then 128 else cf.address + 1) ∧
        cf2.send_queue = force_push cf.send_queue (addressclaim_frame cf2.address cf.name) ∧
        cf2.address_state = AddressState.WaitForVeto now) ∧
      (cf.address_configurable = false →
        cf2.address_state = AddressState.CannotClaim ∧
        cf2.send_queue = force_push cf.send_queue (cannotclaim_frame cf.name)) ∧
      ¬(cf2.address_state = AddressState.AddressClaimed ∧ cf2.address = cf.address) := by
  unfold ControlFunction.handle_addressclaim
  rw [if_pos hlen, if_pos ⟨hstate, hsa⟩, if_pos hlt]
  cases hconf : cf.address_configurable with
  | true =>
    rw [if_pos rfl]
    refine ⟨_, rfl, fun _ => ⟨rfl, rfl, rfl⟩, fun hfalse => absurd hfalse (by decide), ?_⟩
    rintro ⟨hclaimed, -⟩
    exact AddressState.noConfusion hclaimed
  | false =>
    rw [if_neg (by decide)]
    refine ⟨_, rfl, fun htrue => absurd htrue (by decide), fun _ => ⟨rfl, rfl⟩, ?_⟩
    rintro ⟨hclaimed, -⟩
    exact AddressState.noConfusion hclaimed

/-- C2 witness: the configurable CF `claimedCF` (address 133, NAME 5000) hit
by `contestingClaimFrame` (NAME 0) at `now = 42`. -/
theorem C2_lower_name_conflict_witness :
    ∃ cf2, claimedCF.handle_addressclaim contestingClaimFrame 42 = some cf2 ∧
      (claimedCF.address_configurable = true →
        cf2.address =
          (if claimedCF.address < 128 ∨ 247 ≤ claimedCF.address then 128
           else claimedCF.address + 1) ∧
        cf2.send_queue =
          force_push claimedCF.send_queue (addressclaim_frame cf2.address claimedCF.name) ∧
        cf2.address_state = AddressState.WaitForVeto 42) ∧
      (claimedCF.address_configurable = false →
        cf2.address_state = AddressState.CannotClaim ∧
        cf2.send_queue = force_push claimedCF.send_queue (cannotclaim_frame claimedCF.name)) ∧
      ¬(cf2.address_state = AddressState.AddressClaimed ∧
        cf2.address = claimedCF.address) :=
  C2_lower_name_conflict claimedCF contestingClaimFrame 42 (by decide) (by decide)
    (by decide) (by decide)

/-- C10: any accepted frame on PGN 0xEA00 whose payload length differs from 3
panics inside the unguarded `Request` decode, both on the control-function
path (`ControlFunction::handle_new_frame`) and on the monitor path
(`AddressMonitor::handle_frame`); `none` is the panic. -/
theorem C10_short_request_payload_panics (cf : ControlFunction) (m : AddressMonitor)
    (frame : Frame) (now da : Nat)
    (hpgn : frame.header.pgn = PGN_REQUEST)
    (hda : frame.header.destination_address = some da)
    (hacc : da = 0xFF ∨ (cf.address_state = AddressState.AddressClaimed ∧ cf.address = da))
    (hlen : frame.data.length ≠ 3) :
    cf.handle_new_frame frame now = none ∧ m.handle_frame frame = none := by
  have hne : ¬ (PGN_REQUEST = PGN_ADDRESSCLAIM) := by decide
  constructor
  · unfold ControlFunction.handle_new_frame
    rw [hda]
    simp only
    rw [if_pos hacc, hpgn, if_neg hne, if_pos rfl]
    unfold Request.try_from
    rw [hpgn, if_pos rfl, if_neg hlen]
  · unfold AddressMonitor.handle_frame
    rw [hpgn, if_neg hne, if_pos rfl]
    unfold Request.try_from
    rw [hpgn, if_pos rfl, if_neg hlen]

/-- C10 witness: the 2-byte REQUEST payload `shortRequestFrame` addressed to
0xFF, presented to `claimedCF` and an empty monitor. -/
theorem C10_short_request_payload_panics_witness :
    claimedCF.handle_new_frame shortRequestFrame 0 = none ∧
    AddressMonitor.handle_frame ⟨[]⟩ shortRequestFrame = none :=
  C10_short_request_payload_panics claimedCF ⟨[]⟩ shortRequestFrame 0 0xFF (by decide)
    (by decide) (Or.inl rfl) (by decide)

/-- C9 amended: an ingress TP-CM frame with a destination address, at least 8
data bytes, and a control byte that is none of 16/17/19/32/255 is not
rejected gracefully: `TPCM::from_frame` reaches
`panic!("TPCM Message with invalid control byte")` (modelled as `none`), so
the stack crashes on such frames instead of dropping them. -/
theorem C9_amended_unknown_control_byte_panics (h : Header) (d : List Nat) (da : Nat)
    (hda : h.destination_address = some da) (hlen : 8 ≤ d.length)
    (h16 : d.getD 0 0 ≠ 16) (h17 : d.getD 0 0 ≠ 17) (h19 : d.getD 0 0 ≠ 19)
    (h32 : d.getD 0 0 ≠ 32) (h255 : d.getD 0 0 ≠ 255) :
    TPCM.from_frame h d = none := by
  have hnl : ¬ (d.length < 8) := by omega
  simp only [List.getD_eq_getElem?_getD] at h16 h17 h19 h32 h255
  simp [TPCM.from_frame, hda, hnl, List.getD_eq_getElem?_getD, h16, h17, h19, h32, h255]

/-- C9 amended witness: control byte 20 from 0x21 to 0x20. -/
theorem C9_amended_unknown_control_byte_panics_witness :
    TPCM.from_frame
      { pgn := PGN_TP_CM, priority := 7, source_address := 0x21,
        destination_address := some 0x20 }
      [20, 1, 2, 3, 4, 5, 6, 7] = none :=
  C9_amended_unknown_control_byte_panics _ _ 0x20 rfl (by decide) (by decide)
    (by decide) (by decide) (by decide) (by decide)

/-- C3 amended: for every well-formed TPCM message (16-bit message size,
24-bit PGN, and — for BAM — the global destination 0xFF), decoding the
encoded frame returns the message with its `remote_address` and
`local_address` fields exchanged (the decoder describes the frame from the
receiver's point of view); it returns the message itself only when the two
addresses coincide. -/
theorem C3_amended_roundtrip_swaps (v : TPCM) (hv : v.wf) :
    TPCM.from_frame v.to_frame.header v.to_frame.data = some v.swap_addresses := by
  cases v with
  | Rts ms pc mpc p remote loc =>
    obtain ⟨hms, hp⟩ := hv
    obtain ⟨praw⟩ := p
    show TPCM.from_frame ⟨PGN_TP_CM, 7, loc, some remote⟩
        [16, ms % 256, (ms >>> 8) % 256, pc, mpc,
         praw % 256, (praw >>> 8) % 256, (praw >>> 16) % 256] = _
    rw [tpcm_from_frame_explicit, if_neg (fun hc => absurd hc.2 (by decide)), if_pos rfl,
      u16_le_recombine ms hms, u24_le_recombine praw hp]
    rfl
  | Cts ep npn p remote loc =>
    have hp := hv
    obtain ⟨praw⟩ := p
    show TPCM.from_frame ⟨PGN_TP_CM, 7, loc, some remote⟩
        [17, ep, npn, 0xFF, 0xFF,
         praw % 256, (praw >>> 8) % 256, (praw >>> 16) % 256] = _
    rw [tpcm_from_frame_explicit, if_neg (fun hc => absurd hc.2 (by decide)),
      if_neg (by decide), if_pos rfl, u24_le_recombine praw hp]
    rfl
  | EndOfMsg ms pc p remote loc =>
    obtain ⟨hms, hp⟩ := hv
    obtain ⟨praw⟩ := p
    show TPCM.from_frame ⟨PGN_TP_CM, 7, loc, some remote⟩
        [19, ms % 256, (ms >>> 8) % 256, pc, 0xFF,
         praw % 256, (praw >>> 8) % 256, (praw >>> 16) % 256] = _
    rw [tpcm_from_frame_explicit, if_neg (fun hc => absurd hc.2 (by decide)),
      if_neg (by decide), if_neg (by decide), if_pos rfl,
      u16_le_recombine ms hms, u24_le_recombine praw hp]
    rfl
  | Abort r p remote loc =>
    have hp := hv
    obtain ⟨praw⟩ := p
    show TPCM.from_frame ⟨PGN_TP_CM, 7, loc, some remote⟩
        [255, r.to_u8, 0xFF, 0xFF, 0xFF,
         praw % 256, (praw >>> 8) % 256, (praw >>> 16) % 256] = _
    rw [tpcm_from_frame_explicit, if_neg (fun hc => absurd hc.2 (by decide)),
      if_neg (by decide), if_neg (by decide), if_neg (by decide), if_pos rfl,
      reason_roundtrip, u24_le_recombine praw hp]
    rfl
  | Bam ms pc p remote loc =>
    obtain ⟨hms, hp, hrem⟩ := hv
    obtain ⟨praw⟩ := p
    subst hrem
    show TPCM.from_frame ⟨PGN_TP_CM, 7, loc, some 255⟩
        [32, ms % 256, (ms >>> 8) % 256, pc, 0xFF,
         praw % 256, (praw >>> 8) % 256, (praw >>> 16) % 256] = _
    rw [tpcm_from_frame_explicit, if_pos ⟨rfl, rfl⟩,
      u16_le_recombine ms hms, u24_le_recombine praw hp]
    rfl

/-- C3 amended witness: the sample BAM decodes to itself with the two address
fields exchanged. -/
theorem C3_amended_roundtrip_swaps_witness :
    TPCM.from_frame sampleBam.to_frame.header sampleBam.to_frame.data =
      some sampleBam.swap_addresses :=
  C3_amended_roundtrip_swaps sampleBam ⟨by decide, by decide, rfl⟩

/-- C8 amended: the header/id round trip holds once the validity invariant is
stated at the codec boundary: the destination address is absent exactly when
the PDU-format byte is at least 240 (the parser's `>= 240` test, not
`is_broadcast`'s `> 240`), the PGN fits in 18 bits, and a peer-to-peer
header's PGN has a zero low byte (the destination overlays it on the wire).
Then `Header::from(u32::from(h)) = h`. -/
theorem C8_amended_header_roundtrip (h : Header)
    (hprio : h.priority ≤ 7) (hsa : h.source_address < 256)
    (hpgn : h.pgn.raw < 262144)
    (hda : ∀ da, h.destination_address = some da → da < 256 ∧ h.pgn.raw % 256 = 0)
    (hbr : h.destination_address = none ↔ 240 ≤ (h.pgn.raw >>> 8) &&& 255) :
    Header.from_u32 h.to_u32 = h := by
  obtain ⟨⟨p⟩, pr, sa, da⟩ := h
  cases da with
  | none =>
    exact from_u32_broadcast_encode sa p pr hsa hpgn hprio (hbr.mp rfl)
  | some d =>
    obtain ⟨hd, hq⟩ := hda d rfl
    have hpf : ¬ 240 ≤ (p >>> 8) &&& 255 := fun hcon => by
      have hc := hbr.mpr hcon
      exact Option.noConfusion hc
    exact from_u32_p2p_encode sa d p pr hsa hd hpgn hq hprio hpf

/-- C8 amended witness: the peer-to-peer test header of the codec's own test
suite (PGN 0x2F00, priority 5, 0x10 → 0x18) round-trips. -/
theorem C8_amended_header_roundtrip_witness :
    Header.from_u32
        (Header.to_u32
          { pgn := PGN.new 0x2F00, priority := 5, source_address := 0x10,
            destination_address := some 0x18 }) =
      { pgn := PGN.new 0x2F00, priority := 5, source_address := 0x10,
        destination_address := some 0x18 } :=
  C8_amended_header_roundtrip
    { pgn := PGN.new 0x2F00, priority := 5, source_address := 0x10,
      destination_address := some 0x18 }
    (by decide) (by decide) (by decide)
    (fun da hda => by
      cases hda
      exact ⟨by decide, by decide⟩)
    (by constructor
        · intro hc
          exact Option.noConfusion hc
        · intro hc
          exact absurd hc (by decide))

end J1939
